import Mathlib

/-!
Verification of the BrideIT calendar subsystem: the custody schedule
generator (`services/calendar_generator.py`) and the calendar router
(`routers/calendar.py`), shallowly embedded in Lean 4.

Modelling conventions:
* MongoDB documents become Lean structures; optional / possibly-absent
  fields become `Option`.
* A Mongo `_id` (ObjectId) is modelled as a `String` field `oid`.
  `ObjectId(s)` parse failure in the `find_one({"_id": ...})` fallback is
  behaviourally equivalent to a failed equality match, because every stored
  `_id` is a well-formed ObjectId string; the fallback is therefore modelled
  as a plain equality scan on `oid`.
* `datetime` instants are modelled by their calendar fields
  (year, month, day): the only operations the embedded code performs on
  them are field projections and whole-value copies.  `updatedAt`
  timestamps are modelled as abstract `Nat` clock values supplied by the
  caller (`now`).
* Python truthiness on optional strings (`if not x`) is `none` or `""`.
* An `HTTPException` becomes `Except Nat` carrying the status code; a
  handler that performs database writes before raising returns the
  mutated database alongside the error, matching the fact that MongoDB
  writes already executed are not rolled back by a later `raise`.
-/

/-- Calendar instant as stored on an event document (year, month, day). -/
structure DateT where
  year : Int
  month : Int
  day : Int
deriving DecidableEq, Repr

/-- An `events` collection document. -/
structure EventDoc where
  oid : String
  id : Option String
  family_id : String
  date : DateT
  type : String
  title : String
  parent : Option String
  isSwappable : Bool
  createdBy_email : Option String
  updatedAt : Option Nat
deriving DecidableEq, Repr

/-- A `change_requests` collection document. -/
structure CRDoc where
  oid : String
  id : Option String
  family_id : String
  event_id : Option String
  requestedBy_email : Option String
  status : String
  requestType : Option String
  newDate : Option DateT
  swapEventId : Option String
  resolvedBy_email : Option String
  updatedAt : Option Nat
deriving DecidableEq, Repr

/-- A `families` collection document (the fields the calendar code reads). -/
structure FamilyDoc where
  oid : String
  id : Option String
  parent1_email : Option String
  parent2_email : Option String
deriving DecidableEq, Repr

/-- The database state shared by all handlers. -/
structure DB where
  families : List FamilyDoc
  events : List EventDoc
  change_requests : List CRDoc
deriving DecidableEq, Repr

instance exceptDecEq {ε α : Type} [DecidableEq ε] [DecidableEq α] :
    DecidableEq (Except ε α) := fun x y => by
  cases x <;> cases y
  case error.error a b =>
    exact if h : a = b then isTrue (congrArg Except.error h)
      else isFalse (fun hc => h (Except.error.inj hc))
  case error.ok a b => exact isFalse (fun hc => Except.noConfusion hc)
  case ok.error a b => exact isFalse (fun hc => Except.noConfusion hc)
  case ok.ok a b =>
    exact if h : a = b then isTrue (congrArg Except.ok h)
      else isFalse (fun hc => h (Except.ok.inj hc))

/-- Python truthiness of an optional string: `None` and `""` are falsy. -/
def truthyS : Option String → Bool
  | none => false
  | some s => !(s = "")

/-- `collection.update_one(filter_id, {"$set": ...})`: rewrite the first
document whose `oid` matches. -/
def update_first {α : Type} (oidOf : α → String) (t : String) (f : α → α) :
    List α → List α
  | [] => []
  | e :: rest =>
      if oidOf e = t then f e :: rest else e :: update_first oidOf t f rest

/-- `collection.delete_one({"_id": ...})`: drop the first document whose
`oid` matches. -/
def delete_first {α : Type} (oidOf : α → String) (t : String) :
    List α → List α
  | [] => []
  | e :: rest => if oidOf e = t then rest else e :: delete_first oidOf t rest

/-! ## Schedule generator (`services/calendar_generator.py`) -/

/-- The hard-coded 14-day 2-2-3 pattern (`calendar_generator.py` lines 37-44):
`[P1, P1, P2, P2, P1, P1, P1, P2, P2, P1, P1, P2, P2, P2]`. -/
def pattern223 (p1 p2 : String) : List String :=
  [p1, p1, p2, p2, p1, p1, p1, p2, p2, p1, p1, p2, p2, p2]

/-- The parent the 2-2-3 loop assigns to day offset `d` from the anchor:
`pattern[(current_date - start_date).days % 14]`.  The index is always
`< 14`, so the `getD` default is never consulted. -/
def pat223At (p1 p2 : String) (d : Nat) : String :=
  (pattern223 p1 p2).getD (d % 14) p1

/-- The 2-2-3 `while current_date <= end_date` loop, iterating day offsets
from `d` while fuel remains, emitting `(offset, parent)` pairs. -/
def gen223Aux (p1 p2 : String) : Nat → Nat → List (Nat × String)
  | _, 0 => []
  | d, fuel + 1 => (d, pat223At p1 p2 d) :: gen223Aux p1 p2 (d + 1) fuel

/-- 2-2-3 generation for offsets `0 .. horizon` (the source runs the loop
with `horizon = 365`). -/
def gen223 (p1 p2 : String) (horizon : Nat) : List (Nat × String) :=
  gen223Aux p1 p2 0 (horizon + 1)

/-- `current_parent = parent2 if current_parent == parent1 else parent1`. -/
def toggleParent (p1 p2 cur : String) : String :=
  if cur = p1 then p2 else p1

/-- The alternating-weeks `while` loop (`calendar_generator.py` lines 68-82):
carries `current_parent`, toggling whenever the day offset is a positive
multiple of 7, and emits the post-toggle parent for each day. -/
def genAltAux (p1 p2 : String) : String → Nat → Nat → List (Nat × String)
  | _, _, 0 => []
  | cur, d, fuel + 1 =>
      let cur' := if 0 < d ∧ d % 7 = 0 then toggleParent p1 p2 cur else cur
      (d, cur') :: genAltAux p1 p2 cur' (d + 1) fuel

/-- Alternating-weeks generation for offsets `0 .. horizon`, starting from
`current_parent = parent1_email`. -/
def genAlt (p1 p2 : String) (horizon : Nat) : List (Nat × String) :=
  genAltAux p1 p2 p1 0 (horizon + 1)

/-- The spec's closed form for alternating weeks: parent1 on even
`(date - anchor).days / 7`, parent2 on odd. -/
def altClosed (p1 p2 : String) (d : Nat) : String :=
  if (d / 7) % 2 = 0 then p1 else p2

/-- The event document the generator inserts for one day
(`Event(...).model_dump()`): the pydantic `Event` model has no creator
field, so the stored document has no `createdBy_email`; `id` defaults to
`None`, `isSwappable` to `False`. -/
def mkCustodyEvent (family_id : String) (d : DateT) (par : String)
    (oid : String) : EventDoc :=
  { oid := oid, id := none, family_id := family_id, date := d,
    type := "custody", title := "Custody", parent := some par,
    isSwappable := false, createdBy_email := none, updatedAt := none }

/-- `generate_custody_events(family_id, custody_agreement)`.

Ambient inputs are passed explicitly: `is223` is the outcome of the
substring test on the agreement text (line 30), `dayDate d` is the calendar
date `date.today() + timedelta(days=d)`, and `freshOid d` is the ObjectId
MongoDB assigns to the document inserted for day `d`. -/
def generate_custody_events (db : DB) (family_id : String) (is223 : Bool)
    (dayDate : Nat → DateT) (freshOid : Nat → String) : DB :=
  match db.families.find? (fun f => f.id = some family_id) with
  | none => db
  | some fam =>
      if truthyS fam.parent1_email && truthyS fam.parent2_email then
        let p1 := fam.parent1_email.getD ""
        let p2 := fam.parent2_email.getD ""
        let cleaned := db.events.filter
          (fun e => !(e.family_id = family_id && e.type = "custody"))
        let days := if is223 then gen223 p1 p2 365 else genAlt p1 p2 365
        let newEvents := days.map
          (fun dp => mkCustodyEvent family_id (dayDate dp.1) dp.2 (freshOid dp.1))
        { db with events := cleaned ++ newEvents }
      else db

/-! ## Calendar router helpers (`routers/calendar.py`) -/

/-- `_get_family_for_user`: find the family whose parent1 or parent2 email
is the caller's, and collect ALL its valid identifiers (public `id` when
truthy, then the stringified `_id`, which is always present and truthy). -/
def get_family_for_user (db : DB) (userEmail : String) :
    Option (FamilyDoc × List String) :=
  match db.families.find?
      (fun f => f.parent1_email = some userEmail
             || f.parent2_email = some userEmail) with
  | none => none
  | some fam =>
      let ids := (match fam.id with
        | some i => if i = "" then [] else [i]
        | none => []) ++ [fam.oid]
      some (fam, ids)

/-- `db.events.find_one({"id": event_id})`, then the
`find_one({"_id": ObjectId(event_id)})` fallback. -/
def find_event (events : List EventDoc) (event_id : Option String) :
    Option EventDoc :=
  match events.find? (fun e => e.id = event_id) with
  | some e => some e
  | none =>
      match event_id with
      | some s => events.find? (fun e => e.oid = s)
      | none => none

/-- `_find_event_for_family`: lookup plus the family-ownership check;
404 when the event is missing or owned by a family outside the caller's
identifier set. -/
def find_event_for_family (events : List EventDoc) (event_id : Option String)
    (family_ids : List String) : Except Nat EventDoc :=
  match find_event events event_id with
  | none => .error 404
  | some e => if family_ids.contains e.family_id then .ok e else .error 404

/-- Change-request lookup by `id` then `_id`. -/
def find_cr (crs : List CRDoc) (request_id : String) : Option CRDoc :=
  match crs.find? (fun c => c.id = some request_id) with
  | some c => some c
  | none => crs.find? (fun c => c.oid = request_id)

/-- `_find_change_request_for_family`. -/
def find_cr_for_family (crs : List CRDoc) (request_id : String)
    (family_ids : List String) : Except Nat CRDoc :=
  match find_cr crs request_id with
  | none => .error 404
  | some c => if family_ids.contains c.family_id then .ok c else .error 404

/-- The per-event inclusion test of `get_calendar_events` (lines 152-170):
exact year/month match, or the adjacent-month buffer (previous month with
day ≥ 25, next month with day ≤ 7, with December/January wraparound). -/
def month_filter (year month : Int) (d : DateT) : Bool :=
  if d.year = year && d.month = month then true
  else
    let is_prev := (month = 1 && d.month = 12 && d.year = year - 1)
                || (d.month = month - 1 && d.year = year)
    let is_next := (month = 12 && d.month = 1 && d.year = year + 1)
                || (d.month = month + 1 && d.year = year)
    if is_prev && d.day ≥ 25 then true
    else if is_next && d.day ≤ 7 then true
    else false

/-- `GET /events?year,month`: empty list when the caller has no family,
otherwise the family's events passing `month_filter`, in store order. -/
def get_calendar_events (db : DB) (year month : Int) (userEmail : String) :
    List EventDoc :=
  match get_family_for_user db userEmail with
  | none => []
  | some (_, family_ids) =>
      (db.events.filter (fun e => family_ids.contains e.family_id)).filter
        (fun e => month_filter year month e.date)

/-- `.lower().strip()` normalisation used by the creator check. -/
def normEmail (s : String) : String := s.toLower.trim

/-- The request body of `PUT /events/{id}` (pydantic `EventCreate`). -/
structure EventCreateT where
  date : DateT
  type : String
  title : String
  parent : Option String
  isSwappable : Bool
deriving DecidableEq, Repr

/-- `PUT /events/{event_id}`: family lookup, owned event lookup, the
creator-only guard (skipped when `createdBy_email` is falsy), then the
`$set` update.  Email notification is an external side effect. -/
def update_calendar_event (db : DB) (event_id : String)
    (event_data : EventCreateT) (userEmail : String) (now : Nat) :
    DB × Except Nat EventDoc :=
  match get_family_for_user db userEmail with
  | none => (db, .error 404)
  | some (_, family_ids) =>
      match find_event_for_family db.events (some event_id) family_ids with
      | .error e => (db, .error e)
      | .ok ev =>
          if truthyS ev.createdBy_email
              && !(normEmail (ev.createdBy_email.getD "") = normEmail userEmail)
          then (db, .error 403)
          else
            let upd := fun (e : EventDoc) =>
              { e with date := event_data.date, type := event_data.type,
                       title := event_data.title, parent := event_data.parent,
                       isSwappable := event_data.isSwappable,
                       updatedAt := some now }
            ({ db with events := update_first EventDoc.oid ev.oid upd db.events },
             .ok (upd ev))

/-- `DELETE /events/{event_id}`: same creator-only guard, then
`delete_one({"_id": ...})`. -/
def delete_calendar_event (db : DB) (event_id : String)
    (userEmail : String) : DB × Except Nat Unit :=
  match get_family_for_user db userEmail with
  | none => (db, .error 404)
  | some (_, family_ids) =>
      match find_event_for_family db.events (some event_id) family_ids with
      | .error e => (db, .error e)
      | .ok ev =>
          if truthyS ev.createdBy_email
              && !(normEmail (ev.createdBy_email.getD "") = normEmail userEmail)
          then (db, .error 403)
          else
            ({ db with events := delete_first EventDoc.oid ev.oid db.events },
             .ok ())

/-- The single persistence write of the resolution step (line 451):
`update_one({"_id": ...}, {"$set": {"status": ..., "resolvedBy_email": ...}})`
(`updatedAt` is set only on the in-memory dict, not in the `$set`). -/
def resolveWrite (crs : List CRDoc) (t newStatus u : String) : List CRDoc :=
  update_first CRDoc.oid t
    (fun c => { c with status := newStatus, resolvedBy_email := some u }) crs

/-- `PUT /change-requests/{request_id}` (`update_change_request`,
lines 423-525): validate the decision, forbid self-approval, persist the
resolution (`$set` of `status` and `resolvedBy_email`), then — when
approved — apply the swap/modify/cancel mutation against the live events,
re-resolving them by id.  Errors raised after the resolution write return
the database with that write already applied. -/
def update_change_request (db : DB) (request_id : String)
    (newStatus : String) (userEmail : String) (now : Nat) :
    DB × Except Nat CRDoc :=
  match get_family_for_user db userEmail with
  | none => (db, .error 404)
  | some (_, family_ids) =>
      match find_cr_for_family db.change_requests request_id family_ids with
      | .error e => (db, .error e)
      | .ok cr =>
          if !(newStatus = "approved") && !(newStatus = "rejected") then
            (db, .error 400)
          else if newStatus = "approved"
              && cr.requestedBy_email = some userEmail then
            (db, .error 403)
          else
            let cr1 := { cr with status := newStatus,
                                 updatedAt := some now,
                                 resolvedBy_email := some userEmail }
            let crs1 := resolveWrite db.change_requests cr.oid newStatus userEmail
            let db1 := { db with change_requests := crs1 }
            let rty := cr1.requestType.getD "modify"
            if newStatus = "approved" then
              if rty = "swap" then
                if truthyS cr1.swapEventId = false then (db1, .error 400)
                else
                  match find_event_for_family db1.events cr1.event_id family_ids with
                  | .error e => (db1, .error e)
                  | .ok event_doc =>
                      match find_event_for_family db1.events cr1.swapEventId
                          family_ids with
                      | .error e => (db1, .error e)
                      | .ok swap_event_doc =>
                          let event_date := event_doc.date
                          let swap_date := swap_event_doc.date
                          let ev1 := update_first EventDoc.oid event_doc.oid
                            (fun e => { e with date := swap_date,
                                               updatedAt := some now })
                            db1.events
                          let ev2 := update_first EventDoc.oid swap_event_doc.oid
                            (fun e => { e with date := event_date,
                                               updatedAt := some now })
                            ev1
                          ({ db1 with events := ev2 }, .ok cr1)
              else if rty = "modify" then
                match cr1.newDate with
                | none => (db1, .error 400)
                | some nd =>
                    match find_event_for_family db1.events cr1.event_id
                        family_ids with
                    | .error e => (db1, .error e)
                    | .ok event_doc =>
                        let ev1 := update_first EventDoc.oid event_doc.oid
                          (fun e => { e with date := nd,
                                             updatedAt := some now })
                          db1.events
                        ({ db1 with events := ev1 }, .ok cr1)
              else if rty = "cancel" then
                match find_event_for_family db1.events cr1.event_id family_ids with
                | .error e => (db1, .error e)
                | .ok event_doc =>
                    let ev1 := delete_first EventDoc.oid event_doc.oid db1.events
                    ({ db1 with events := ev1 }, .ok cr1)
              else (db1, .ok cr1)
            else (db1, .ok cr1)

/-! ## Generator lemmas -/

/-- The parent value carried by the alternating-weeks loop on entry to
iteration `d` (before the toggle test of that iteration). -/
def entryCur (p1 p2 : String) (d : Nat) : String :=
  if d = 0 then p1 else altClosed p1 p2 (d - 1)

lemma altStep (p1 p2 : String) (d : Nat) :
    (if 0 < d ∧ d % 7 = 0 then toggleParent p1 p2 (entryCur p1 p2 d)
     else entryCur p1 p2 d) = altClosed p1 p2 d := by
  by_cases h0 : d = 0
  · subst h0
    simp [entryCur, altClosed]
  · have hpos : 0 < d := Nat.pos_of_ne_zero h0
    by_cases h7 : d % 7 = 0
    · rw [if_pos ⟨hpos, h7⟩]
      unfold entryCur
      rw [if_neg h0]
      unfold altClosed toggleParent
      have hdiv : d / 7 = (d - 1) / 7 + 1 := by omega
      rw [hdiv]
      by_cases hp : (d - 1) / 7 % 2 = 0
      · have hodd : ¬((d - 1) / 7 + 1) % 2 = 0 := by omega
        rw [if_pos hp, if_pos rfl, if_neg hodd]
      · have heven : ((d - 1) / 7 + 1) % 2 = 0 := by omega
        rw [if_neg hp, if_pos heven]
        by_cases hpq : p2 = p1
        · rw [if_pos hpq, hpq]
        · rw [if_neg hpq]
    · rw [if_neg (fun h => h7 h.2)]
      unfold entryCur altClosed
      rw [if_neg h0]
      have : (d - 1) / 7 = d / 7 := by omega
      rw [this]

lemma genAltAux_eq (p1 p2 : String) :
    ∀ (fuel d : Nat), genAltAux p1 p2 (entryCur p1 p2 d) d fuel
      = (List.range' d fuel).map (fun k => (k, altClosed p1 p2 k)) := by
  intro fuel
  induction fuel with
  | zero => intro d; simp [genAltAux]
  | succ n ih =>
      intro d
      rw [List.range'_succ, List.map_cons]
      simp only [genAltAux]
      rw [altStep]
      have hnext : altClosed p1 p2 d = entryCur p1 p2 (d + 1) := by
        simp [entryCur]
      rw [hnext, ih (d + 1)]

/-- C8: the alternating-weeks toggle loop computes exactly the closed form:
day offset `d` gets parent1 when `d / 7` is even and parent2 when odd. -/
theorem alt_loop_matches_closed_form (p1 p2 : String) (horizon : Nat) :
    genAlt p1 p2 horizon
      = (List.range (horizon + 1)).map (fun d => (d, altClosed p1 p2 d)) := by
  have h := genAltAux_eq p1 p2 (horizon + 1) 0
  rw [show entryCur p1 p2 0 = p1 from rfl] at h
  rw [genAlt, h, List.range_eq_range']

lemma gen223Aux_eq (p1 p2 : String) :
    ∀ (fuel d : Nat), gen223Aux p1 p2 d fuel
      = (List.range' d fuel).map (fun k => (k, pat223At p1 p2 k)) := by
  intro fuel
  induction fuel with
  | zero => intro d; simp [gen223Aux]
  | succ n ih =>
      intro d
      rw [List.range'_succ, List.map_cons]
      simp only [gen223Aux]
      rw [ih (d + 1)]

lemma gen223_eq (p1 p2 : String) (horizon : Nat) :
    gen223 p1 p2 horizon
      = (List.range (horizon + 1)).map (fun k => (k, pat223At p1 p2 k)) := by
  rw [gen223, gen223Aux_eq, List.range_eq_range']

/-- C5: the 2-2-3 generator assigns day offset `d` the parent
`pattern[d % 14]`; offset 0 is always parent1 and offset 13 always
parent2, and over the 14 days starting at the anchor each parent is
assigned exactly 7 days. -/
theorem gen223_pattern_correct (p1 p2 : String) (horizon : Nat)
    (hh : 13 ≤ horizon) (hne : p1 ≠ p2) :
    (∀ dp ∈ gen223 p1 p2 horizon, dp.2 = pat223At p1 p2 dp.1) ∧
    (∀ d ≤ horizon, (d, pat223At p1 p2 d) ∈ gen223 p1 p2 horizon) ∧
    (0, p1) ∈ gen223 p1 p2 horizon ∧
    (13, p2) ∈ gen223 p1 p2 horizon ∧
    (((gen223 p1 p2 horizon).take 14).filter (fun dp => dp.2 = p1)).length = 7 ∧
    (((gen223 p1 p2 horizon).take 14).filter (fun dp => dp.2 = p2)).length = 7 := by
  have heq := gen223_eq p1 p2 horizon
  have hmem : ∀ d ≤ horizon, (d, pat223At p1 p2 d) ∈ gen223 p1 p2 horizon := by
    intro d hd
    rw [heq]
    exact List.mem_map_of_mem _ (List.mem_range.mpr (by omega))
  have htake : (gen223 p1 p2 horizon).take 14
      = (List.range 14).map (fun k => (k, pat223At p1 p2 k)) := by
    rw [heq, ← List.map_take, List.take_range, Nat.min_eq_left (by omega)]
  have hr14 : List.range 14 = [0,1,2,3,4,5,6,7,8,9,10,11,12,13] := by rfl
  refine ⟨?_, hmem, ?_, ?_, ?_, ?_⟩
  · intro dp hdp
    rw [heq] at hdp
    obtain ⟨k, _, hk⟩ := List.mem_map.mp hdp
    rw [← hk]
  · exact hmem 0 (by omega)
  · exact hmem 13 hh
  · rw [htake, hr14]
    simp [pat223At, pattern223, hne, Ne.symm hne]
  · rw [htake, hr14]
    simp [pat223At, pattern223, hne, Ne.symm hne]

theorem gen223_pattern_correct_witness :
    13 ≤ 13 ∧ "alice" ≠ "bob" ∧
    (0, "alice") ∈ gen223 "alice" "bob" 13 ∧ (13, "bob") ∈ gen223 "alice" "bob" 13 :=
  ⟨by decide, by decide,
   (gen223_pattern_correct "alice" "bob" 13 (by decide) (by decide)).2.2.1,
   (gen223_pattern_correct "alice" "bob" 13 (by decide) (by decide)).2.2.2.1⟩
/-- An event document answers to identifier `eid` if either its public `id`
field or its ObjectId matches (the two lookup stages of
`_find_event_for_family`). -/
def identifies (e : EventDoc) (eid : String) : Prop :=
  e.id = some eid ∨ e.oid = eid

instance identifiesDec (e : EventDoc) (eid : String) :
    Decidable (identifies e eid) :=
  inferInstanceAs (Decidable (e.id = some eid ∨ e.oid = eid))

lemma find?_eq_some_of_unique {α : Type} (l : List α) (p : α → Bool)
    (hu : ∀ a ∈ l, ∀ b ∈ l, p a → p b → a = b) (a : α)
    (ha : a ∈ l) (hpa : p a) : l.find? p = some a := by
  induction l with
  | nil => cases ha
  | cons x xs ih =>
      by_cases hx : p x
      · rw [List.find?_cons_of_pos _ hx]
        have : a = x := hu a ha x (List.mem_cons_self x xs) hpa hx
        rw [this]
      · rw [List.find?_cons_of_neg _ hx]
        have ha' : a ∈ xs := by
          rcases List.mem_cons.mp ha with h | h
          · exact absurd (h ▸ hpa) hx
          · exact h
        exact ih (fun a ha b hb => hu a (List.mem_cons_of_mem _ ha) b
          (List.mem_cons_of_mem _ hb)) ha'

lemma find_event_eq_some_of_unique (events : List EventDoc) (eid : String)
    (huniq : ∀ a ∈ events, ∀ b ∈ events,
      identifies a eid → identifies b eid → a = b)
    (e : EventDoc) (he : e ∈ events) (hid : identifies e eid) :
    find_event events (some eid) = some e := by
  have hidcase : e.id = some eid ∨ (¬ e.id = some eid ∧ e.oid = eid) := by
    rcases hid with h | h
    · exact Or.inl h
    · by_cases h2 : e.id = some eid
      · exact Or.inl h2
      · exact Or.inr ⟨h2, h⟩
  unfold find_event
  rcases hidcase with hid1 | ⟨hid2, hoid⟩
  · have h1 : events.find? (fun x => decide (x.id = some eid)) = some e :=
      find?_eq_some_of_unique events _
        (fun a ha b hb hpa hpb => huniq a ha b hb
          (Or.inl (of_decide_eq_true hpa)) (Or.inl (of_decide_eq_true hpb)))
        e he (decide_eq_true hid1)
    rw [h1]
  · have h1 : events.find? (fun x => decide (x.id = some eid)) = none := by
      rw [List.find?_eq_none]
      intro x hx hpx
      have hxe : x = e := huniq x hx e he (Or.inl (by simpa using hpx))
        (Or.inr hoid)
      exact hid2 (by simpa [hxe] using hpx)
    rw [h1]
    have h2 : events.find? (fun x => decide (x.oid = eid)) = some e :=
      find?_eq_some_of_unique events _
        (fun a ha b hb hpa hpb => huniq a ha b hb
          (Or.inr (of_decide_eq_true hpa)) (Or.inr (of_decide_eq_true hpb)))
        e he (decide_eq_true hoid)
    exact h2

lemma find_event_some_spec (events : List EventDoc) (eid : String)
    (e : EventDoc) (hfe : find_event events (some eid) = some e) :
    e ∈ events ∧ identifies e eid := by
  unfold find_event at hfe
  cases h1 : events.find? (fun x => decide (x.id = some eid)) with
  | some e' =>
      rw [h1] at hfe
      cases hfe
      exact ⟨List.mem_of_find?_eq_some h1,
        Or.inl (by simpa using List.find?_some h1)⟩
  | none =>
      rw [h1] at hfe
      exact ⟨List.mem_of_find?_eq_some hfe,
        Or.inr (by simpa using List.find?_some hfe)⟩

/-- C7: `_find_event_for_family(e, S)` returns the event exactly when an
event answering to identifier `e` exists whose family id is a member of
`S`; in every other case (event missing, or family id outside `S`) it
fails with NotFound (404).  Stated under uniqueness of identifiers, which
MongoDB guarantees for `_id` and the application for uuid `id`s. -/
theorem find_event_owned_iff (events : List EventDoc) (eid : String)
    (S : List String)
    (huniq : ∀ a ∈ events, ∀ b ∈ events,
      identifies a eid → identifies b eid → a = b) :
    (∀ e ∈ events, identifies e eid → e.family_id ∈ S →
        find_event_for_family events (some eid) S = .ok e) ∧
    ((¬ ∃ e ∈ events, identifies e eid ∧ e.family_id ∈ S) →
        find_event_for_family events (some eid) S = .error 404) ∧
    (∀ e, find_event_for_family events (some eid) S = .ok e →
        e ∈ events ∧ identifies e eid ∧ e.family_id ∈ S) := by
  refine ⟨?_, ?_, ?_⟩
  · intro e he hid hfam
    unfold find_event_for_family
    rw [find_event_eq_some_of_unique events eid huniq e he hid]
    show (if S.contains e.family_id = true then Except.ok e
          else Except.error 404) = Except.ok e
    rw [if_pos (by simpa [List.elem_iff] using hfam)]
  · intro hnone
    unfold find_event_for_family
    cases hfe : find_event events (some eid) with
    | none => rfl
    | some e =>
        obtain ⟨he, hid⟩ := find_event_some_spec events eid e hfe
        show (if S.contains e.family_id = true then Except.ok e
              else Except.error 404) = Except.error 404
        rw [if_neg]
        intro hcon
        exact hnone ⟨e, he, hid, by simpa [List.elem_iff] using hcon⟩
  · intro e hok
    unfold find_event_for_family at hok
    cases hfe : find_event events (some eid) with
    | none => rw [hfe] at hok; cases hok
    | some e' =>
        rw [hfe] at hok
        have hok' : (if S.contains e'.family_id = true then Except.ok e'
            else Except.error 404) = Except.ok e := hok
        by_cases hfam : S.contains e'.family_id = true
        · rw [if_pos hfam] at hok'
          cases hok'
          obtain ⟨he, hid⟩ := find_event_some_spec events eid e hfe
          exact ⟨he, hid, by simpa [List.elem_iff] using hfam⟩
        · rw [if_neg hfam] at hok'
          cases hok'

/-- Concrete fixture for the C7 witness. -/
def wC7Event : EventDoc :=
  { oid := "507f1f77bcf86cd799439011", id := some "ev-1", family_id := "fam-1",
    date := ⟨2024, 7, 4⟩, type := "custody", title := "Custody",
    parent := some "a@x", isSwappable := false,
    createdBy_email := none, updatedAt := none }

theorem find_event_owned_iff_witness :
    find_event_for_family [wC7Event] (some "ev-1") ["fam-1"] = .ok wC7Event :=
  (find_event_owned_iff [wC7Event] "ev-1" ["fam-1"] (by decide)).1
    wC7Event (by decide) (by decide) (by decide)

/-- C3: resolving a pending change request with decision `approved` by the
requester themself fails with PermissionDenied (403) and returns the
database completely unchanged: no persistence write and no calendar
mutation. -/
theorem self_approval_rejected_403 (db : DB) (rid u : String) (now : Nat)
    (fam : FamilyDoc) (ids : List String) (cr : CRDoc)
    (hfam : get_family_for_user db u = some (fam, ids))
    (hcr : find_cr_for_family db.change_requests rid ids = .ok cr)
    (_hpend : cr.status = "pending")
    (hreq : cr.requestedBy_email = some u) :
    update_change_request db rid "approved" u now = (db, .error 403) := by
  unfold update_change_request
  simp only [hfam, hcr, hreq]
  rw [if_neg (by decide), if_pos (by simp)]

/-- Concrete fixture for the C3 witness. -/
def wC3Db : DB :=
  { families := [{ oid := "f-oid", id := some "fam-1",
                   parent1_email := some "a@x", parent2_email := some "b@x" }],
    events := [],
    change_requests := [{ oid := "c-oid", id := some "req-1",
                          family_id := "fam-1", event_id := some "ev-1",
                          requestedBy_email := some "a@x",
                          status := "pending", requestType := some "modify",
                          newDate := some ⟨2024, 8, 1⟩, swapEventId := none,
                          resolvedBy_email := none, updatedAt := none }] }

theorem self_approval_rejected_403_witness :
    update_change_request wC3Db "req-1" "approved" "a@x" 5
      = (wC3Db, .error 403) :=
  self_approval_rejected_403 wC3Db "req-1" "a@x" 5
    ⟨"f-oid", some "fam-1", some "a@x", some "b@x"⟩ ["fam-1", "f-oid"]
    ⟨"c-oid", some "req-1", "fam-1", some "ev-1", some "a@x", "pending",
     some "modify", some ⟨2024, 8, 1⟩, none, none, none⟩
    (by decide) (by decide) (by decide) (by decide)

/-- C9: for a July-2024 month query by a caller with a family, every family
event dated in July 2024 is returned, and a family event dated in June 2024
is returned exactly when its day is in the leading buffer (day >= 25):
June 28-30 are returned, June 20 is not. -/
theorem month_query_july_buffer (db : DB) (u : String)
    (fam : FamilyDoc) (ids : List String)
    (hfam : get_family_for_user db u = some (fam, ids)) :
    (∀ e ∈ db.events, e.family_id ∈ ids → e.date.year = 2024 →
        e.date.month = 7 → e ∈ get_calendar_events db 2024 7 u) ∧
    (∀ e ∈ db.events, e.family_id ∈ ids → e.date.year = 2024 →
        e.date.month = 6 →
        (e ∈ get_calendar_events db 2024 7 u ↔ 25 ≤ e.date.day)) := by
  have hres : get_calendar_events db 2024 7 u
      = (db.events.filter (fun e => ids.contains e.family_id)).filter
          (fun e => month_filter 2024 7 e.date) := by
    unfold get_calendar_events
    rw [hfam]
  constructor
  · intro e he hfid hy hm
    rw [hres, List.mem_filter, List.mem_filter]
    refine ⟨⟨he, by simpa [List.elem_iff] using hfid⟩, ?_⟩
    unfold month_filter
    rw [if_pos (by simp [hy, hm])]
  · intro e he hfid hy hm
    rw [hres, List.mem_filter, List.mem_filter]
    constructor
    · rintro ⟨-, hmf⟩
      unfold month_filter at hmf
      simp [hy, hm] at hmf
      exact hmf
    · intro hday
      refine ⟨⟨he, by simpa [List.elem_iff] using hfid⟩, ?_⟩
      unfold month_filter
      simp [hy, hm, hday]

/-- Concrete fixtures for the C9 witness. -/
def wC9Ev (oidv idv : String) (d : DateT) : EventDoc :=
  { oid := oidv, id := some idv, family_id := "fam-1", date := d,
    type := "general", title := "T", parent := none, isSwappable := false,
    createdBy_email := some "a@x", updatedAt := none }

/-- Database for the C9 witness: one July event, one June 28 event and one
June 20 event, all owned by the caller's family. -/
def wC9Db : DB :=
  { families := [{ oid := "f-oid", id := some "fam-1",
                   parent1_email := some "a@x", parent2_email := some "b@x" }],
    events := [wC9Ev "o1" "e1" ⟨2024, 7, 10⟩,
               wC9Ev "o2" "e2" ⟨2024, 6, 28⟩,
               wC9Ev "o3" "e3" ⟨2024, 6, 20⟩],
    change_requests := [] }

theorem month_query_july_buffer_witness :
    wC9Ev "o1" "e1" ⟨2024, 7, 10⟩ ∈ get_calendar_events wC9Db 2024 7 "a@x" ∧
    (wC9Ev "o2" "e2" ⟨2024, 6, 28⟩ ∈ get_calendar_events wC9Db 2024 7 "a@x"
      ↔ (25 : Int) ≤ 28) ∧
    (wC9Ev "o3" "e3" ⟨2024, 6, 20⟩ ∈ get_calendar_events wC9Db 2024 7 "a@x"
      ↔ (25 : Int) ≤ 20) :=
  ⟨(month_query_july_buffer wC9Db "a@x"
      ⟨"f-oid", some "fam-1", some "a@x", some "b@x"⟩ ["fam-1", "f-oid"]
      (by decide)).1 (wC9Ev "o1" "e1" ⟨2024, 7, 10⟩)
      (by decide) (by decide) (by decide) (by decide),
   (month_query_july_buffer wC9Db "a@x"
      ⟨"f-oid", some "fam-1", some "a@x", some "b@x"⟩ ["fam-1", "f-oid"]
      (by decide)).2 (wC9Ev "o2" "e2" ⟨2024, 6, 28⟩)
      (by decide) (by decide) (by decide) (by decide),
   (month_query_july_buffer wC9Db "a@x"
      ⟨"f-oid", some "fam-1", some "a@x", some "b@x"⟩ ["fam-1", "f-oid"]
      (by decide)).2 (wC9Ev "o3" "e3" ⟨2024, 6, 20⟩)
      (by decide) (by decide) (by decide) (by decide)⟩

/-- C10 (implicit): when an event document has no `createdBy_email` (absent
or empty) — as is the case for every generator-inserted event, whose
pydantic model has no creator field — the creator-only guard is skipped
and any member of the owning family can directly edit (PUT) or delete
(DELETE) the event without a PermissionDenied error. -/
theorem missing_creator_allows_any_family_member (db : DB) (eid u : String)
    (now : Nat) (data : EventCreateT) (fam : FamilyDoc) (ids : List String)
    (ev : EventDoc)
    (hfam : get_family_for_user db u = some (fam, ids))
    (hev : find_event_for_family db.events (some eid) ids = .ok ev)
    (hcreator : ev.createdBy_email = none ∨ ev.createdBy_email = some "") :
    (update_calendar_event db eid data u now).2
      = .ok { ev with
                date := data.date
                type := data.type
                title := data.title
                parent := data.parent
                isSwappable := data.isSwappable
                updatedAt := some now } ∧
    (delete_calendar_event db eid u).2 = .ok () ∧
    (∀ fid d par o, (mkCustodyEvent fid d par o).createdBy_email = none) := by
  have htr : truthyS ev.createdBy_email = false := by
    rcases hcreator with h | h <;> simp [truthyS, h]
  refine ⟨?_, ?_, fun _ _ _ _ => rfl⟩
  · unfold update_calendar_event
    simp only [hfam, hev]
    rw [if_neg (by simp [htr])]
  · unfold delete_calendar_event
    simp only [hfam, hev]
    rw [if_neg (by simp [htr])]

/-- Database for the C10 witness: a generator-style custody event (no `id`,
no `createdBy_email`), addressed by its ObjectId, edited by parent2. -/
def wC10Db : DB :=
  { families := [{ oid := "f-oid", id := some "fam-1",
                   parent1_email := some "a@x", parent2_email := some "b@x" }],
    events := [mkCustodyEvent "fam-1" ⟨2024, 7, 1⟩ "a@x" "g-oid-0"],
    change_requests := [] }

def wC10Data : EventCreateT :=
  { date := ⟨2024, 7, 2⟩, type := "custody", title := "Custody",
    parent := some "b@x", isSwappable := true }

theorem missing_creator_allows_any_family_member_witness :
    (update_calendar_event wC10Db "g-oid-0" wC10Data "b@x" 9).2
      = .ok { mkCustodyEvent "fam-1" ⟨2024, 7, 1⟩ "a@x" "g-oid-0" with
                date := wC10Data.date
                type := wC10Data.type
                title := wC10Data.title
                parent := wC10Data.parent
                isSwappable := wC10Data.isSwappable
                updatedAt := some 9 } ∧
    (delete_calendar_event wC10Db "g-oid-0" "b@x").2 = .ok () :=
  ⟨(missing_creator_allows_any_family_member wC10Db "g-oid-0" "b@x" 9
      wC10Data ⟨"f-oid", some "fam-1", some "a@x", some "b@x"⟩
      ["fam-1", "f-oid"] (mkCustodyEvent "fam-1" ⟨2024, 7, 1⟩ "a@x" "g-oid-0")
      (by decide) (by decide) (Or.inl rfl)).1,
   (missing_creator_allows_any_family_member wC10Db "g-oid-0" "b@x" 9
      wC10Data ⟨"f-oid", some "fam-1", some "a@x", some "b@x"⟩
      ["fam-1", "f-oid"] (mkCustodyEvent "fam-1" ⟨2024, 7, 1⟩ "a@x" "g-oid-0")
      (by decide) (by decide) (Or.inl rfl)).2.1⟩

/-- C2 (amended): the resolve endpoint performs no terminal-state check.
A resolve call on a request that is already `approved` or `rejected` does
not fail with InvalidState: with a valid decision (here `rejected`) by a
family member it succeeds, overwriting the stored status and resolver
identity exactly as for a pending request. -/
theorem terminal_request_reresolve_overwrites (db : DB) (rid u : String)
    (now : Nat) (fam : FamilyDoc) (ids : List String) (cr : CRDoc)
    (hfam : get_family_for_user db u = some (fam, ids))
    (hcr : find_cr_for_family db.change_requests rid ids = .ok cr)
    (_hterm : cr.status = "approved" ∨ cr.status = "rejected") :
    update_change_request db rid "rejected" u now
      = ({ db with change_requests := resolveWrite db.change_requests cr.oid "rejected" u },
         .ok { cr with status := "rejected", updatedAt := some now,
                       resolvedBy_email := some u }) := by
  unfold update_change_request
  simp only [hfam, hcr]
  rw [if_neg (by decide), if_neg (by simp), if_neg (by decide)]

/-- An already-terminal (`approved`) change request, for the C2
counterexample and witness. -/
def wC2CR : CRDoc :=
  { oid := "c-oid", id := some "req-1", family_id := "fam-1",
    event_id := some "ev-1", requestedBy_email := some "a@x",
    status := "approved", requestType := some "modify",
    newDate := some ⟨2024, 8, 1⟩, swapEventId := none,
    resolvedBy_email := some "b@x", updatedAt := some 1 }

def wC2Db : DB :=
  { families := [{ oid := "f-oid", id := some "fam-1",
                   parent1_email := some "a@x", parent2_email := some "b@x" }],
    events := [],
    change_requests := [wC2CR] }

/-- C2 counterexample: `wC2CR` is already terminal (`status = "approved"`),
yet a further resolve call by the other parent succeeds (no InvalidState
failure) and changes the stored status and resolver — refuting the claim
that the request and store are left unchanged. -/
theorem terminal_reresolve_cex :
    (update_change_request wC2Db "req-1" "rejected" "b@x" 7).2
      = .ok { wC2CR with status := "rejected", updatedAt := some 7,
                         resolvedBy_email := some "b@x" } ∧
    (update_change_request wC2Db "req-1" "rejected" "b@x" 7).1.change_requests
      = [{ wC2CR with status := "rejected",
                      resolvedBy_email := some "b@x" }] := by
  decide

theorem terminal_request_reresolve_overwrites_witness :
    update_change_request wC2Db "req-1" "rejected" "b@x" 7
      = ({ wC2Db with change_requests := resolveWrite wC2Db.change_requests "c-oid" "rejected" "b@x" },
         .ok { wC2CR with status := "rejected", updatedAt := some 7,
                          resolvedBy_email := some "b@x" }) :=
  terminal_request_reresolve_overwrites wC2Db "req-1" "b@x" 7
    ⟨"f-oid", some "fam-1", some "a@x", some "b@x"⟩ ["fam-1", "f-oid"] wC2CR
    (by decide) (by decide) (Or.inl rfl)

/-- C6 (amended): whenever the apply-mutation step of an approved
resolution cannot re-resolve a referenced event — the target event of a
swap, modify or cancel request, or the swap event of a swap request,
missing or not owned by the resolver's family — the call fails with
NotFound (404), not a silent no-op, even though the resolution record has
already been persisted as approved by the earlier write. -/
theorem apply_step_missing_event_404_after_persist (db : DB)
    (rid u : String) (now : Nat)
    (fam : FamilyDoc) (ids : List String) (cr : CRDoc)
    (hfam : get_family_for_user db u = some (fam, ids))
    (hcr : find_cr_for_family db.change_requests rid ids = .ok cr)
    (hreq : cr.requestedBy_email ≠ some u) :
    (∀ sid : String, cr.requestType.getD "modify" = "swap" →
      cr.swapEventId = some sid → sid ≠ "" →
      find_event_for_family db.events cr.event_id ids = .error 404 →
      update_change_request db rid "approved" u now
        = ({ db with change_requests := resolveWrite db.change_requests cr.oid "approved" u },
           .error 404)) ∧
    (∀ (sid : String) (A : EventDoc), cr.requestType.getD "modify" = "swap" →
      cr.swapEventId = some sid → sid ≠ "" →
      find_event_for_family db.events cr.event_id ids = .ok A →
      find_event_for_family db.events (some sid) ids = .error 404 →
      update_change_request db rid "approved" u now
        = ({ db with change_requests := resolveWrite db.change_requests cr.oid "approved" u },
           .error 404)) ∧
    (∀ nd : DateT, cr.requestType.getD "modify" = "modify" →
      cr.newDate = some nd →
      find_event_for_family db.events cr.event_id ids = .error 404 →
      update_change_request db rid "approved" u now
        = ({ db with change_requests := resolveWrite db.change_requests cr.oid "approved" u },
           .error 404)) ∧
    (cr.requestType.getD "modify" = "cancel" →
      find_event_for_family db.events cr.event_id ids = .error 404 →
      update_change_request db rid "approved" u now
        = ({ db with change_requests := resolveWrite db.change_requests cr.oid "approved" u },
           .error 404)) := by
  refine ⟨?_, ?_, ?_, ?_⟩
  · intro sid hty hsid hsne hmiss
    unfold update_change_request
    simp only [hfam, hcr]
    rw [if_neg (by decide), if_neg (by simp [hreq])]
    simp only [hty, hsid, hmiss, if_true]
    rw [if_neg (by simp [truthyS, hsne])]
  · intro sid A hty hsid hsne hok hmiss
    unfold update_change_request
    simp only [hfam, hcr]
    rw [if_neg (by decide), if_neg (by simp [hreq])]
    simp only [hty, hsid, hok, hmiss, if_true]
    rw [if_neg (by simp [truthyS, hsne])]
  · intro nd hty hnd hmiss
    unfold update_change_request
    simp only [hfam, hcr]
    rw [if_neg (by decide), if_neg (by simp [hreq])]
    simp only [hty, hnd, hmiss, if_true]
    rw [if_neg (by decide)]
  · intro hty hmiss
    unfold update_change_request
    simp only [hfam, hcr]
    rw [if_neg (by decide), if_neg (by simp [hreq])]
    simp only [hty, hmiss, if_true]
    rw [if_neg (by decide), if_neg (by decide)]

/-- A pending swap request whose target event does not exist, for the C6
counterexample and witness. -/
def wC6CR : CRDoc :=
  { oid := "c-oid", id := some "req-1", family_id := "fam-1",
    event_id := some "ev-gone", requestedBy_email := some "a@x",
    status := "pending", requestType := some "swap",
    newDate := none, swapEventId := some "ev-b",
    resolvedBy_email := none, updatedAt := none }

def wC6Db : DB :=
  { families := [{ oid := "f-oid", id := some "fam-1",
                   parent1_email := some "a@x", parent2_email := some "b@x" }],
    events := [],
    change_requests := [wC6CR] }

/-- C6 counterexample: with the swap target absent from the event store,
the approved resolution fails with status 404 (NotFound), not 409
(Conflict), while the request has been persisted as approved — refuting
the claimed Conflict error code. -/
theorem apply_step_missing_event_cex :
    (update_change_request wC6Db "req-1" "approved" "b@x" 7).2 = .error 404 ∧
    (update_change_request wC6Db "req-1" "approved" "b@x" 7).2 ≠ .error 409 ∧
    (update_change_request wC6Db "req-1" "approved" "b@x" 7).1.change_requests
      = [{ wC6CR with status := "approved",
                      resolvedBy_email := some "b@x" }] := by
  decide

/-- The one event present in the C6 witness store: the swap target of
`wC6Swap2`, whose swap partner is missing. -/
def wC6A : EventDoc :=
  { oid := "oA", id := some "eA", family_id := "fam-1",
    date := ⟨2024, 6, 3⟩, type := "custody", title := "Custody",
    parent := some "a@x", isSwappable := true,
    createdBy_email := none, updatedAt := none }

/-- Swap request whose target exists but whose swap event is missing. -/
def wC6Swap2 : CRDoc :=
  { oid := "co2", id := some "req-s2", family_id := "fam-1",
    event_id := some "eA", requestedBy_email := some "a@x",
    status := "pending", requestType := some "swap",
    newDate := none, swapEventId := some "ev-gone",
    resolvedBy_email := none, updatedAt := none }

/-- Modify request whose target event is missing. -/
def wC6Mod : CRDoc :=
  { oid := "co3", id := some "req-m", family_id := "fam-1",
    event_id := some "ev-gone", requestedBy_email := some "a@x",
    status := "pending", requestType := some "modify",
    newDate := some ⟨2024, 8, 1⟩, swapEventId := none,
    resolvedBy_email := none, updatedAt := none }

/-- Cancel request whose target event is missing. -/
def wC6Can : CRDoc :=
  { oid := "co4", id := some "req-c", family_id := "fam-1",
    event_id := some "ev-gone", requestedBy_email := some "a@x",
    status := "pending", requestType := some "cancel",
    newDate := none, swapEventId := none,
    resolvedBy_email := none, updatedAt := none }

/-- Witness store covering all four apply-failure shapes: swap with missing
target, swap with missing swap event, modify and cancel with missing
target. -/
def wC6Db2 : DB :=
  { families := [{ oid := "f-oid", id := some "fam-1",
                   parent1_email := some "a@x", parent2_email := some "b@x" }],
    events := [wC6A],
    change_requests := [wC6CR, wC6Swap2, wC6Mod, wC6Can] }

theorem apply_step_missing_event_404_witness :
    (update_change_request wC6Db2 "req-1" "approved" "b@x" 7
      = ({ wC6Db2 with change_requests := resolveWrite wC6Db2.change_requests "c-oid" "approved" "b@x" },
         .error 404)) ∧
    (update_change_request wC6Db2 "req-s2" "approved" "b@x" 7
      = ({ wC6Db2 with change_requests := resolveWrite wC6Db2.change_requests "co2" "approved" "b@x" },
         .error 404)) ∧
    (update_change_request wC6Db2 "req-m" "approved" "b@x" 7
      = ({ wC6Db2 with change_requests := resolveWrite wC6Db2.change_requests "co3" "approved" "b@x" },
         .error 404)) ∧
    (update_change_request wC6Db2 "req-c" "approved" "b@x" 7
      = ({ wC6Db2 with change_requests := resolveWrite wC6Db2.change_requests "co4" "approved" "b@x" },
         .error 404)) :=
  ⟨(apply_step_missing_event_404_after_persist wC6Db2 "req-1" "b@x" 7
      ⟨"f-oid", some "fam-1", some "a@x", some "b@x"⟩ ["fam-1", "f-oid"]
      wC6CR (by decide) (by decide) (by decide)).1 "ev-b"
      (by decide) (by decide) (by decide) (by decide),
   (apply_step_missing_event_404_after_persist wC6Db2 "req-s2" "b@x" 7
      ⟨"f-oid", some "fam-1", some "a@x", some "b@x"⟩ ["fam-1", "f-oid"]
      wC6Swap2 (by decide) (by decide) (by decide)).2.1 "ev-gone" wC6A
      (by decide) (by decide) (by decide) (by decide) (by decide),
   (apply_step_missing_event_404_after_persist wC6Db2 "req-m" "b@x" 7
      ⟨"f-oid", some "fam-1", some "a@x", some "b@x"⟩ ["fam-1", "f-oid"]
      wC6Mod (by decide) (by decide) (by decide)).2.2.1 ⟨2024, 8, 1⟩
      (by decide) (by decide) (by decide),
   (apply_step_missing_event_404_after_persist wC6Db2 "req-c" "b@x" 7
      ⟨"f-oid", some "fam-1", some "a@x", some "b@x"⟩ ["fam-1", "f-oid"]
      wC6Can (by decide) (by decide) (by decide)).2.2.2
      (by decide) (by decide)⟩

/-- C1 (amended): the regeneration cleanup pass
(`db.events.delete_many({"family_id": ..., "type": "custody"})`) deletes
every event of the family with type `"custody"` regardless of creator —
user-authored custody events included — and preserves exactly the
family's non-custody events and other families' events. -/
theorem regen_cleanup_deletes_all_family_custody (db : DB) (fid : String)
    (is223 : Bool) (dayDate : Nat → DateT) (freshOid : Nat → String)
    (fam : FamilyDoc)
    (hfam : db.families.find? (fun f => f.id = some fid) = some fam)
    (hp1 : truthyS fam.parent1_email = true)
    (hp2 : truthyS fam.parent2_email = true) :
    (∀ e ∈ db.events, (e.family_id ≠ fid ∨ e.type ≠ "custody") →
        e ∈ (generate_custody_events db fid is223 dayDate freshOid).events) ∧
    (∀ e ∈ db.events, e.family_id = fid → e.type = "custody" →
        e.createdBy_email.isSome →
        e ∉ (generate_custody_events db fid is223 dayDate freshOid).events) := by
  have hres : (generate_custody_events db fid is223 dayDate freshOid).events
      = db.events.filter (fun e => !(e.family_id = fid && e.type = "custody"))
        ++ ((if is223
              then gen223 (fam.parent1_email.getD "") (fam.parent2_email.getD "") 365
              else genAlt (fam.parent1_email.getD "") (fam.parent2_email.getD "") 365).map
            (fun dp => mkCustodyEvent fid (dayDate dp.1) dp.2 (freshOid dp.1))) := by
    unfold generate_custody_events
    simp only [hfam]
    rw [if_pos (by rw [hp1, hp2]; rfl)]
  constructor
  · intro e he hcond
    rw [hres, List.mem_append]
    left
    rw [List.mem_filter]
    exact ⟨he, by rcases hcond with h | h <;> simp [h]⟩
  · intro e he hfid hty hsome hmem
    rw [hres, List.mem_append] at hmem
    rcases hmem with h | h
    · rw [List.mem_filter] at h
      have := h.2
      simp [hfid, hty] at this
    · rw [List.mem_map] at h
      obtain ⟨dp, -, hdp⟩ := h
      have hcb := congrArg EventDoc.createdBy_email hdp
      simp only [mkCustodyEvent] at hcb
      rw [← hcb] at hsome
      simp at hsome

/-- A user-authored custody event of the regenerated family, for the C1
counterexample and witness. -/
def wC1Gone : EventDoc :=
  { oid := "u-oid", id := some "ev-u", family_id := "fam-1",
    date := ⟨2024, 6, 3⟩, type := "custody", title := "UserCustody",
    parent := some "a@x", isSwappable := false,
    createdBy_email := some "a@x", updatedAt := none }

/-- A user-authored non-custody event of the same family. -/
def wC1Keep : EventDoc :=
  { oid := "k-oid", id := some "ev-k", family_id := "fam-1",
    date := ⟨2024, 6, 4⟩, type := "general", title := "Dinner",
    parent := none, isSwappable := false,
    createdBy_email := some "a@x", updatedAt := none }

def wC1Db : DB :=
  { families := [{ oid := "f-oid", id := some "fam-1",
                   parent1_email := some "a@x", parent2_email := some "b@x" }],
    events := [wC1Gone, wC1Keep],
    change_requests := [] }

/-- C1 counterexample: `wC1Gone` is a user-authored custody event (creator
marker present) of family `fam-1`; it is present before regeneration and
absent after, because the cleanup filter matches only on family and type
`"custody"` with no creator condition — refuting the claim that every
user-authored event survives regeneration. -/
theorem regen_deletes_user_custody_cex :
    wC1Gone ∈ wC1Db.events ∧
    wC1Gone ∉ (generate_custody_events wC1Db "fam-1" false
      (fun _ => ⟨2024, 1, 1⟩) (fun _ => "g-oid")).events := by
  refine ⟨by decide, ?_⟩
  intro hmem
  have hres : (generate_custody_events wC1Db "fam-1" false
      (fun _ => ⟨2024, 1, 1⟩) (fun _ => "g-oid")).events
      = wC1Db.events.filter
          (fun e => !(e.family_id = "fam-1" && e.type = "custody"))
        ++ ((genAlt "a@x" "b@x" 365).map
            (fun dp => mkCustodyEvent "fam-1" ⟨2024, 1, 1⟩ dp.2 "g-oid")) := rfl
  rw [hres, List.mem_append] at hmem
  rcases hmem with h | h
  · rw [List.mem_filter] at h
    have := h.2
    simp [wC1Gone] at this
  · rw [List.mem_map] at h
    obtain ⟨dp, -, hdp⟩ := h
    have hcb := congrArg EventDoc.createdBy_email hdp
    simp [mkCustodyEvent, wC1Gone] at hcb

theorem regen_cleanup_deletes_all_family_custody_witness :
    wC1Keep ∈ (generate_custody_events wC1Db "fam-1" false
      (fun _ => ⟨2024, 1, 1⟩) (fun _ => "g-oid")).events ∧
    wC1Gone ∉ (generate_custody_events wC1Db "fam-1" false
      (fun _ => ⟨2024, 1, 1⟩) (fun _ => "g-oid")).events :=
  ⟨(regen_cleanup_deletes_all_family_custody wC1Db "fam-1" false
      (fun _ => ⟨2024, 1, 1⟩) (fun _ => "g-oid")
      ⟨"f-oid", some "fam-1", some "a@x", some "b@x"⟩
      (by decide) (by decide) (by decide)).1 wC1Keep (by decide)
      (Or.inr (by decide)),
   (regen_cleanup_deletes_all_family_custody wC1Db "fam-1" false
      (fun _ => ⟨2024, 1, 1⟩) (fun _ => "g-oid")
      ⟨"f-oid", some "fam-1", some "a@x", some "b@x"⟩
      (by decide) (by decide) (by decide)).2 wC1Gone (by decide)
      rfl rfl (by decide)⟩

/-- The two event-store writes of an approved swap (lines 496-503): first
the target event's date is set to the swap event's date, then the swap
event's date to the target's original date, both with fresh `updatedAt`. -/
def swapApply (l : List EventDoc) (A B : EventDoc) (now : Nat) :
    List EventDoc :=
  update_first EventDoc.oid B.oid
    (fun e => { e with date := A.date, updatedAt := some now })
    (update_first EventDoc.oid A.oid
      (fun e => { e with date := B.date, updatedAt := some now }) l)

lemma resolve_swap_effect (db : DB) (rid u sid : String) (now : Nat)
    (fam : FamilyDoc) (ids : List String) (cr : CRDoc) (A B : EventDoc)
    (hfam : get_family_for_user db u = some (fam, ids))
    (hcr : find_cr_for_family db.change_requests rid ids = .ok cr)
    (hty : cr.requestType.getD "modify" = "swap")
    (hreq : cr.requestedBy_email ≠ some u)
    (hsid : cr.swapEventId = some sid) (hsne : sid ≠ "")
    (hA : find_event_for_family db.events cr.event_id ids = .ok A)
    (hB : find_event_for_family db.events (some sid) ids = .ok B) :
    update_change_request db rid "approved" u now
      = ({ families := db.families,
           events := swapApply db.events A B now,
           change_requests := resolveWrite db.change_requests cr.oid "approved" u },
         .ok { cr with status := "approved", updatedAt := some now,
                       resolvedBy_email := some u }) := by
  unfold update_change_request
  simp only [hfam, hcr]
  rw [if_neg (by decide), if_neg (by simp [hreq])]
  simp only [hty, hsid, hA, hB, if_true]
  rw [if_neg (by simp [truthyS, hsne])]
  rfl

/-- `find_one({"_id": t})`: first event with ObjectId `t`. -/
def getByOid (l : List EventDoc) (t : String) : Option EventDoc :=
  l.find? (fun e => e.oid = t)

/-- Pointwise form of a single `update_one` date write: touch the event
with ObjectId `t`, leave everything else alone. -/
def setDate (t : String) (d : DateT) (now : Nat) (e : EventDoc) : EventDoc :=
  if e.oid = t then { e with date := d, updatedAt := some now } else e

lemma setDate_oid (t : String) (d : DateT) (now : Nat) (e : EventDoc) :
    (setDate t d now e).oid = e.oid := by
  unfold setDate
  by_cases h : e.oid = t <;> simp [h]

lemma setDate_id (t : String) (d : DateT) (now : Nat) (e : EventDoc) :
    (setDate t d now e).id = e.id := by
  unfold setDate
  by_cases h : e.oid = t <;> simp [h]

lemma setDate_family (t : String) (d : DateT) (now : Nat) (e : EventDoc) :
    (setDate t d now e).family_id = e.family_id := by
  unfold setDate
  by_cases h : e.oid = t <;> simp [h]

lemma update_first_eq_map (t : String) (f : EventDoc → EventDoc)
    (l : List EventDoc) (hn : (l.map EventDoc.oid).Nodup) :
    update_first EventDoc.oid t f l
      = l.map (fun e => if e.oid = t then f e else e) := by
  induction l with
  | nil => rfl
  | cons x xs ih =>
      rw [List.map_cons, List.nodup_cons] at hn
      obtain ⟨hx, hxs⟩ := hn
      by_cases hxt : x.oid = t
      · unfold update_first
        rw [if_pos hxt, List.map_cons, if_pos hxt]
        congr 1
        have hrest : ∀ e ∈ xs, (if e.oid = t then f e else e) = e := by
          intro e he
          rw [if_neg]
          intro hc
          exact hx (hxt ▸ hc ▸ List.mem_map_of_mem EventDoc.oid he)
        rw [List.map_congr_left hrest, List.map_id']
      · unfold update_first
        rw [if_neg hxt, List.map_cons, if_neg hxt]
        congr 1
        exact ih hxs

lemma map_oid_of_oid_preserving (g : EventDoc → EventDoc)
    (hg : ∀ e, (g e).oid = e.oid) (l : List EventDoc) :
    (l.map g).map EventDoc.oid = l.map EventDoc.oid := by
  rw [List.map_map]
  exact List.map_congr_left (fun e _ => hg e)

lemma find_event_map (l : List EventDoc) (eid : Option String)
    (g : EventDoc → EventDoc) (hid : ∀ e, (g e).id = e.id)
    (hoid : ∀ e, (g e).oid = e.oid) :
    find_event (l.map g) eid = (find_event l eid).map g := by
  unfold find_event
  rw [List.find?_map]
  rw [show ((fun e : EventDoc => decide (e.id = eid)) ∘ g)
      = (fun e : EventDoc => decide (e.id = eid)) from
    funext fun e => by simp [Function.comp, hid]]
  cases hf : l.find? (fun e : EventDoc => decide (e.id = eid)) with
  | some e => rfl
  | none =>
      cases eid with
      | none => rfl
      | some s =>
          show (l.map g).find? (fun e : EventDoc => decide (e.oid = s))
              = (l.find? (fun e : EventDoc => decide (e.oid = s))).map g
          rw [List.find?_map]
          rw [show ((fun e : EventDoc => decide (e.oid = s)) ∘ g)
              = (fun e : EventDoc => decide (e.oid = s)) from
            funext fun e => by simp [Function.comp, hoid]]

lemma fef_ok_elim (l : List EventDoc) (eid : Option String) (S : List String)
    (e : EventDoc) (h : find_event_for_family l eid S = .ok e) :
    find_event l eid = some e ∧ S.contains e.family_id = true := by
  unfold find_event_for_family at h
  cases hf : find_event l eid with
  | none => rw [hf] at h; cases h
  | some x =>
      rw [hf] at h
      have h' : (if S.contains x.family_id = true then Except.ok x
          else Except.error 404) = Except.ok e := h
      by_cases hc : S.contains x.family_id = true
      · rw [if_pos hc] at h'
        have hxe : x = e := Except.ok.inj h'
        subst hxe
        exact ⟨rfl, hc⟩
      · rw [if_neg hc] at h'
        cases h'

lemma fef_map_ok (l : List EventDoc) (eid : Option String) (S : List String)
    (e : EventDoc) (g : EventDoc → EventDoc)
    (hid : ∀ x, (g x).id = x.id) (hoid : ∀ x, (g x).oid = x.oid)
    (hfid : ∀ x, (g x).family_id = x.family_id)
    (h : find_event_for_family l eid S = .ok e) :
    find_event_for_family (l.map g) eid S = .ok (g e) := by
  obtain ⟨hfe, hc⟩ := fef_ok_elim l eid S e h
  unfold find_event_for_family
  rw [find_event_map l eid g hid hoid, hfe]
  show (if S.contains (g e).family_id = true then Except.ok (g e)
        else Except.error 404) = Except.ok (g e)
  rw [if_pos (by rw [hfid]; exact hc)]

lemma getByOid_map (l : List EventDoc) (t : String)
    (g : EventDoc → EventDoc) (hoid : ∀ e, (g e).oid = e.oid) :
    getByOid (l.map g) t = (getByOid l t).map g := by
  unfold getByOid
  rw [List.find?_map]
  rw [show ((fun e : EventDoc => decide (e.oid = t)) ∘ g)
      = (fun e : EventDoc => decide (e.oid = t)) from
    funext fun e => by simp [Function.comp, hoid]]

lemma getByOid_self (l : List EventDoc) (e : EventDoc)
    (hn : (l.map EventDoc.oid).Nodup) (he : e ∈ l) :
    getByOid l e.oid = some e :=
  find?_eq_some_of_unique l _
    (fun _ ha _ hb hpa hpb =>
      List.inj_on_of_nodup_map hn ha hb
        ((of_decide_eq_true hpa).trans (of_decide_eq_true hpb).symm))
    e he (decide_eq_true rfl)

lemma swapApply_eq_map (l : List EventDoc) (A B : EventDoc) (now : Nat)
    (hn : (l.map EventDoc.oid).Nodup) :
    swapApply l A B now
      = l.map (fun e => setDate B.oid A.date now (setDate A.oid B.date now e)) := by
  unfold swapApply
  rw [update_first_eq_map A.oid _ l hn]
  rw [update_first_eq_map B.oid _ _
    (by rw [map_oid_of_oid_preserving _ (fun e => by by_cases h : e.oid = A.oid <;> simp [h]) l]; exact hn)]
  rw [List.map_map]
  apply List.map_congr_left
  intro e _
  simp [Function.comp, setDate]

lemma find_event_mem (l : List EventDoc) (eid : Option String) (e : EventDoc)
    (h : find_event l eid = some e) : e ∈ l := by
  unfold find_event at h
  cases h1 : l.find? (fun x => decide (x.id = eid)) with
  | some x =>
      rw [h1] at h
      have hxe : x = e := Option.some.inj h
      exact hxe ▸ List.mem_of_find?_eq_some h1
  | none =>
      rw [h1] at h
      cases eid with
      | none => exact absurd h (by simp)
      | some s => exact List.mem_of_find?_eq_some h

/-- C4: resolving an approved swap whose target and swap events both exist
and are family-owned exchanges the two events' live `date` fields (read at
apply-time, not from the request snapshot) and stamps both `updatedAt`;
applying a second approved swap over the same two events restores both
original dates. -/
theorem approved_swap_exchanges_and_double_swap_restores
    (db : DB) (rid1 rid2 u1 u2 sid : String) (now1 now2 : Nat)
    (fam1 fam2 : FamilyDoc) (ids : List String) (r1 r2 : CRDoc)
    (A B : EventDoc)
    (hnod : (db.events.map EventDoc.oid).Nodup)
    (hfam1 : get_family_for_user db u1 = some (fam1, ids))
    (hr1 : find_cr_for_family db.change_requests rid1 ids = .ok r1)
    (h1ty : r1.requestType.getD "modify" = "swap")
    (h1req : r1.requestedBy_email ≠ some u1)
    (h1sid : r1.swapEventId = some sid) (hsne : sid ≠ "")
    (hA : find_event_for_family db.events r1.event_id ids = .ok A)
    (hB : find_event_for_family db.events (some sid) ids = .ok B)
    (hAB : A.oid ≠ B.oid)
    (hfam2 : get_family_for_user db u2 = some (fam2, ids))
    (hr2 : find_cr_for_family
      (update_change_request db rid1 "approved" u1 now1).1.change_requests
      rid2 ids = .ok r2)
    (h2ty : r2.requestType.getD "modify" = "swap")
    (h2req : r2.requestedBy_email ≠ some u2)
    (h2sid : r2.swapEventId = some sid)
    (h2eid : r2.event_id = r1.event_id) :
    (update_change_request db rid1 "approved" u1 now1).2
        = .ok { r1 with status := "approved", updatedAt := some now1,
                        resolvedBy_email := some u1 } ∧
    getByOid (update_change_request db rid1 "approved" u1 now1).1.events A.oid
        = some { A with date := B.date, updatedAt := some now1 } ∧
    getByOid (update_change_request db rid1 "approved" u1 now1).1.events B.oid
        = some { B with date := A.date, updatedAt := some now1 } ∧
    getByOid (update_change_request
        (update_change_request db rid1 "approved" u1 now1).1
        rid2 "approved" u2 now2).1.events A.oid
        = some { A with updatedAt := some now2 } ∧
    getByOid (update_change_request
        (update_change_request db rid1 "approved" u1 now1).1
        rid2 "approved" u2 now2).1.events B.oid
        = some { B with updatedAt := some now2 } := by
  have e1 := resolve_swap_effect db rid1 u1 sid now1 fam1 ids r1 A B
    hfam1 hr1 h1ty h1req h1sid hsne hA hB
  have hoidg1 : ∀ e : EventDoc,
      (setDate B.oid A.date now1 (setDate A.oid B.date now1 e)).oid = e.oid :=
    fun e => by rw [setDate_oid, setDate_oid]
  have hidg1 : ∀ e : EventDoc,
      (setDate B.oid A.date now1 (setDate A.oid B.date now1 e)).id = e.id :=
    fun e => by rw [setDate_id, setDate_id]
  have hfidg1 : ∀ e : EventDoc,
      (setDate B.oid A.date now1 (setDate A.oid B.date now1 e)).family_id
        = e.family_id :=
    fun e => by rw [setDate_family, setDate_family]
  have hswap1 : (update_change_request db rid1 "approved" u1 now1).1.events
      = db.events.map
          (fun e => setDate B.oid A.date now1 (setDate A.oid B.date now1 e)) := by
    rw [e1]
    exact swapApply_eq_map db.events A B now1 hnod
  have hmemA : A ∈ db.events :=
    find_event_mem db.events r1.event_id A
      (fef_ok_elim db.events r1.event_id ids A hA).1
  have hmemB : B ∈ db.events :=
    find_event_mem db.events (some sid) B
      (fef_ok_elim db.events (some sid) ids B hB).1
  have hgetA : getByOid db.events A.oid = some A :=
    getByOid_self db.events A hnod hmemA
  have hgetB : getByOid db.events B.oid = some B :=
    getByOid_self db.events B hnod hmemB
  have hout1A : getByOid
      (update_change_request db rid1 "approved" u1 now1).1.events A.oid
      = some { A with date := B.date, updatedAt := some now1 } := by
    rw [hswap1, getByOid_map _ _ _ hoidg1, hgetA]
    simp [setDate, hAB]
  have hout1B : getByOid
      (update_change_request db rid1 "approved" u1 now1).1.events B.oid
      = some { B with date := A.date, updatedAt := some now1 } := by
    rw [hswap1, getByOid_map _ _ _ hoidg1, hgetB]
    simp [setDate, Ne.symm hAB]
  have hfam2' : get_family_for_user
      (update_change_request db rid1 "approved" u1 now1).1 u2
      = some (fam2, ids) := by
    rw [e1]
    exact hfam2
  have hA2 : find_event_for_family
      (update_change_request db rid1 "approved" u1 now1).1.events
      r2.event_id ids
      = .ok { A with date := B.date, updatedAt := some now1 } := by
    rw [h2eid, hswap1]
    have h := fef_map_ok db.events r1.event_id ids A _ hidg1 hoidg1 hfidg1 hA
    rw [show setDate B.oid A.date now1 (setDate A.oid B.date now1 A)
        = { A with date := B.date, updatedAt := some now1 } from by
      simp [setDate, hAB]] at h
    exact h
  have hB2 : find_event_for_family
      (update_change_request db rid1 "approved" u1 now1).1.events
      (some sid) ids
      = .ok { B with date := A.date, updatedAt := some now1 } := by
    rw [hswap1]
    have h := fef_map_ok db.events (some sid) ids B _ hidg1 hoidg1 hfidg1 hB
    rw [show setDate B.oid A.date now1 (setDate A.oid B.date now1 B)
        = { B with date := A.date, updatedAt := some now1 } from by
      simp [setDate, Ne.symm hAB]] at h
    exact h
  have hnod1 : ((update_change_request db rid1 "approved" u1 now1).1.events.map
      EventDoc.oid).Nodup := by
    rw [hswap1, map_oid_of_oid_preserving _ hoidg1]
    exact hnod
  have e2 := resolve_swap_effect
    (update_change_request db rid1 "approved" u1 now1).1 rid2 u2 sid now2
    fam2 ids r2
    { A with date := B.date, updatedAt := some now1 }
    { B with date := A.date, updatedAt := some now1 }
    hfam2' hr2 h2ty h2req h2sid hsne hA2 hB2
  have hoidg2 : ∀ e : EventDoc,
      (setDate B.oid B.date now2 (setDate A.oid A.date now2 e)).oid = e.oid :=
    fun e => by rw [setDate_oid, setDate_oid]
  have hswap2 : (update_change_request
      (update_change_request db rid1 "approved" u1 now1).1
      rid2 "approved" u2 now2).1.events
      = (update_change_request db rid1 "approved" u1 now1).1.events.map
          (fun e => setDate B.oid B.date now2 (setDate A.oid A.date now2 e)) := by
    rw [e2]
    exact swapApply_eq_map _
      { A with date := B.date, updatedAt := some now1 }
      { B with date := A.date, updatedAt := some now1 } now2 hnod1
  refine ⟨by rw [e1], hout1A, hout1B, ?_, ?_⟩
  · rw [hswap2, getByOid_map _ _ _ hoidg2, hout1A]
    simp [setDate, hAB]
  · rw [hswap2, getByOid_map _ _ _ hoidg2, hout1B]
    simp [setDate, Ne.symm hAB]

/-- Concrete fixtures for the C4 witness: two swappable custody events and
two cross-requested swap change requests on them. -/
def wC4A : EventDoc :=
  { oid := "oA", id := some "eA", family_id := "fam-1",
    date := ⟨2024, 6, 3⟩, type := "custody", title := "Custody",
    parent := some "a@x", isSwappable := true,
    createdBy_email := none, updatedAt := none }

def wC4B : EventDoc :=
  { oid := "oB", id := some "eB", family_id := "fam-1",
    date := ⟨2024, 6, 10⟩, type := "custody", title := "Custody",
    parent := some "b@x", isSwappable := true,
    createdBy_email := none, updatedAt := none }

def wC4R1 : CRDoc :=
  { oid := "co1", id := some "req-1", family_id := "fam-1",
    event_id := some "eA", requestedBy_email := some "a@x",
    status := "pending", requestType := some "swap", newDate := none,
    swapEventId := some "eB", resolvedBy_email := none, updatedAt := none }

def wC4R2 : CRDoc :=
  { oid := "co2", id := some "req-2", family_id := "fam-1",
    event_id := some "eA", requestedBy_email := some "b@x",
    status := "pending", requestType := some "swap", newDate := none,
    swapEventId := some "eB", resolvedBy_email := none, updatedAt := none }

def wC4Db : DB :=
  { families := [{ oid := "f-oid", id := some "fam-1",
                   parent1_email := some "a@x", parent2_email := some "b@x" }],
    events := [wC4A, wC4B],
    change_requests := [wC4R1, wC4R2] }

theorem approved_swap_exchanges_witness :
    getByOid (update_change_request wC4Db "req-1" "approved" "b@x" 100).1.events
        wC4A.oid
      = some { wC4A with date := wC4B.date, updatedAt := some 100 } ∧
    getByOid (update_change_request
        (update_change_request wC4Db "req-1" "approved" "b@x" 100).1
        "req-2" "approved" "a@x" 200).1.events wC4A.oid
      = some { wC4A with updatedAt := some 200 } ∧
    getByOid (update_change_request
        (update_change_request wC4Db "req-1" "approved" "b@x" 100).1
        "req-2" "approved" "a@x" 200).1.events wC4B.oid
      = some { wC4B with updatedAt := some 200 } :=
  ⟨(approved_swap_exchanges_and_double_swap_restores wC4Db "req-1" "req-2"
      "b@x" "a@x" "eB" 100 200
      ⟨"f-oid", some "fam-1", some "a@x", some "b@x"⟩
      ⟨"f-oid", some "fam-1", some "a@x", some "b@x"⟩
      ["fam-1", "f-oid"] wC4R1 wC4R2 wC4A wC4B
      (by decide) (by decide) (by decide) (by decide) (by decide) (by decide)
      (by decide) (by decide) (by decide) (by decide) (by decide) (by decide)
      (by decide) (by decide) (by decide) (by decide)).2.1,
   (approved_swap_exchanges_and_double_swap_restores wC4Db "req-1" "req-2"
      "b@x" "a@x" "eB" 100 200
      ⟨"f-oid", some "fam-1", some "a@x", some "b@x"⟩
      ⟨"f-oid", some "fam-1", some "a@x", some "b@x"⟩
      ["fam-1", "f-oid"] wC4R1 wC4R2 wC4A wC4B
      (by decide) (by decide) (by decide) (by decide) (by decide) (by decide)
      (by decide) (by decide) (by decide) (by decide) (by decide) (by decide)
      (by decide) (by decide) (by decide) (by decide)).2.2.2.1,
   (approved_swap_exchanges_and_double_swap_restores wC4Db "req-1" "req-2"
      "b@x" "a@x" "eB" 100 200
      ⟨"f-oid", some "fam-1", some "a@x", some "b@x"⟩
      ⟨"f-oid", some "fam-1", some "a@x", some "b@x"⟩
      ["fam-1", "f-oid"] wC4R1 wC4R2 wC4A wC4B
      (by decide) (by decide) (by decide) (by decide) (by decide) (by decide)
      (by decide) (by decide) (by decide) (by decide) (by decide) (by decide)
      (by decide) (by decide) (by decide) (by decide)).2.2.2.2⟩
